import Mathlib

/-!
Shallow embedding of the medium abstraction and connection-lifecycle logic of
the srt-live-transmit sample application (src/apps/srt-live-transmit.cpp and
src/common/transmitmedia.cpp), together with theorems settling the frozen
claims about its specification.

External collaborators (the SRT library proper, the socket-option table
declared in common/socketoptions.hpp, OS calls, numeric string parsing) are
modelled as explicit parameters/oracles of the embedded functions, so every
definition is translated from the source of the two files above.
-/

/-- Association-list map standing in for std::map<string,string>. -/
abbrev OptMap := List (String × String)

/-- std::map lookup (map.count(k) / map.at(k)). -/
def mapLookup (par : OptMap) (key : String) : Option String :=
  match par with
  | [] => none
  | (k, v) :: rest => if k = key then some v else mapLookup rest key

/-- std::map erase(k). -/
def mapErase (par : OptMap) (key : String) : OptMap :=
  match par with
  | [] => []
  | (k, v) :: rest => if k = key then mapErase rest key else (k, v) :: mapErase rest key

/-- std::map operator[] assignment: overwrite if present, else add. -/
def mapInsert (par : OptMap) (key : String) (value : String) : OptMap :=
  match par with
  | [] => [(key, value)]
  | (k, v) :: rest =>
      if k = key then (k, value) :: rest else (k, v) :: mapInsert rest key value

theorem mapLookup_mapErase_ne (par : OptMap) (k k' : String) (h : k' ≠ k) :
    mapLookup (mapErase par k) k' = mapLookup par k' := by
  induction par with
  | nil => rfl
  | cons p rest ih =>
      obtain ⟨a, b⟩ := p
      by_cases hak : a = k
      · subst hak
        simp [mapErase, mapLookup, ih, Ne.symm h]
      · by_cases hak' : a = k'
        · subst hak'
          simp [mapErase, mapLookup, hak]
        · simp [mapErase, mapLookup, hak, hak', ih]

theorem mapLookup_mapInsert_self (par : OptMap) (k v : String) :
    mapLookup (mapInsert par k v) k = some v := by
  induction par with
  | nil => simp [mapInsert, mapLookup]
  | cons p rest ih =>
      obtain ⟨a, b⟩ := p
      by_cases hak : a = k
      · subst hak; simp [mapInsert, mapLookup]
      · simp [mapInsert, mapLookup, hak, ih]

/-- SRT_LIVE_DEF_PLSIZE: default live-mode payload (chunk) size. -/
def SRT_LIVE_DEF_PLSIZE : Nat := 1316

/-- SRT_LIVE_MAX_PLSIZE: live-mode payload ceiling. -/
def SRT_LIVE_MAX_PLSIZE : Nat := 1456

/-- Fields of SrtCommon assigned by SrtCommon::InitParameters.  Their
initial values (timeout 0, adapter "", tsbpd on, outgoing port 0) are the
field initializers of the class declaration, which sits in the header
outside the excerpt; the spec describes them as the defaults the extraction
relies on. -/
structure SrtConfig where
  m_mode : String
  m_timeout : Int
  m_adapter : String
  m_tsbpdmode : Bool
  m_outgoing_port : Int
  m_options : OptMap
deriving Repr, DecidableEq

/-- Reads an integer-valued option: `stoi(par.at(key), 0, 0)` followed by
`par.erase(key)`.  The C++ std::stoi (base auto-detected) is abstracted as
the oracle `stoi`; `none` models the std::invalid_argument it throws. -/
def getIntOpt (stoi : String → Option Int) (par : OptMap) (key : String) (deflt : Int) :
    Except String (Int × OptMap) :=
  match mapLookup par key with
  | none => .ok (deflt, par)
  | some v =>
      match stoi v with
      | none => .error ("stoi: " ++ key)
      | some n => .ok (n, mapErase par key)

/-- Intermediate state of InitParameters after the scalar options
(mode/timeout/adapter/tsbpd/port) were extracted and erased from the map,
just before the live chunk-size step. -/
structure ScalarParams where
  m_mode : String
  m_timeout : Int
  m_adapter : String
  m_tsbpdmode : Bool
  m_outgoing_port : Int
  par : OptMap
deriving Repr, DecidableEq

/-- First half of SrtCommon::InitParameters (transmitmedia.cpp:106-176):
mode normalization (default from host emptiness, client→caller,
server→listener), timeout, adapter (defaults to host in listener mode),
tsbpd toggle, pinned outgoing port.  The dead
`if ((false)) && par.count("blocking")` block is omitted as its condition
is statically false. -/
def initScalars (stoi : String → Option Int) (false_names : List String)
    (host : String) (par0 : OptMap) : Except String ScalarParams := do
  let m0 := (mapLookup par0 "mode").getD "default"
  let m1 := if m0 = "default" then (if host = "" then "listener" else "caller") else m0
  let m_mode := if m1 = "client" then "caller" else if m1 = "server" then "listener" else m1
  let par := mapErase par0 "mode"
  let (m_timeout, par) ← getIntOpt stoi par "timeout" 0
  let (m_adapter, par) :=
    match mapLookup par "adapter" with
    | some a => (a, mapErase par "adapter")
    | none => (if m_mode = "listener" then host else "", par)
  let m_tsbpdmode :=
    match mapLookup par "tsbpd" with
    | some v => !(false_names.contains v)
    | none => true
  let (m_outgoing_port, par) ← getIntOpt stoi par "port" 0
  .ok { m_mode := m_mode, m_timeout := m_timeout, m_adapter := m_adapter,
        m_tsbpdmode := m_tsbpdmode, m_outgoing_port := m_outgoing_port, par := par }

/-- Second half of SrtCommon::InitParameters (transmitmedia.cpp:178-190):
unless transtype=file was enforced, a non-default live chunk size is
injected as the payloadsize option, after being checked against the
live-mode ceiling (`Sprint` is decimal formatting, i.e. toString). -/
def enforceLiveChunk (transmit_chunk_size : Nat) (par : OptMap) : Except String OptMap :=
  if mapLookup par "transtype" ≠ some "file" then
    if transmit_chunk_size ≠ SRT_LIVE_DEF_PLSIZE then
      if transmit_chunk_size > SRT_LIVE_MAX_PLSIZE then
        .error "Chunk size in live mode exceeds 1456 bytes; this is not supported"
      else
        .ok (mapInsert par "payloadsize" (toString transmit_chunk_size))
    else .ok par
  else .ok par

/-- SrtCommon::InitParameters (transmitmedia.cpp:106-194).  `stoi` abstracts
std::stoi (base auto-detection included; `none` models its
std::invalid_argument), `transmit_chunk_size` is the process-wide chunk
size global, `false_names` is the external set of "false" spellings used
for the tsbpd toggle, `.error` models the thrown exceptions. -/
def InitParameters (stoi : String → Option Int) (transmit_chunk_size : Nat)
    (false_names : List String) (host : String) (par0 : OptMap) :
    Except String SrtConfig := do
  let s ← initScalars stoi false_names host par0
  let par ← enforceLiveChunk transmit_chunk_size s.par
  .ok { m_mode := s.m_mode, m_timeout := s.m_timeout, m_adapter := s.m_adapter,
        m_tsbpdmode := s.m_tsbpdmode, m_outgoing_port := s.m_outgoing_port,
        m_options := par }

theorem getIntOpt_ok (stoi : String → Option Int) (par : OptMap) (key : String)
    (deflt : Int) (hstoi : ∀ v, (stoi v).isSome) :
    ∃ n par', getIntOpt stoi par key deflt = .ok (n, par') ∧
      ∀ k, k ≠ key → mapLookup par' k = mapLookup par k := by
  unfold getIntOpt
  rcases h : mapLookup par key with _ | v
  · exact ⟨deflt, par, rfl, fun _ _ => rfl⟩
  · obtain ⟨n, hn⟩ := Option.isSome_iff_exists.mp (hstoi v)
    refine ⟨n, mapErase par key, ?_, fun k hk => mapLookup_mapErase_ne par key k hk⟩
    simp [hn]

theorem initScalars_ok_of_stoi_total (stoi : String → Option Int)
    (false_names : List String) (host : String) (par0 : OptMap)
    (hstoi : ∀ v, (stoi v).isSome) :
    ∃ s : ScalarParams, initScalars stoi false_names host par0 = .ok s ∧
      mapLookup s.par "transtype" = mapLookup par0 "transtype" := by
  obtain ⟨n1, par1, e1, hp1⟩ := getIntOpt_ok stoi (mapErase par0 "mode") "timeout" 0 hstoi
  have hpar1 : mapLookup par1 "transtype" = mapLookup par0 "transtype" := by
    rw [hp1 "transtype" (by decide)]
    exact mapLookup_mapErase_ne par0 "mode" "transtype" (by decide)
  rcases h2 : mapLookup par1 "adapter" with _ | v2
  · obtain ⟨n3, par3, e3, hp3⟩ := getIntOpt_ok stoi par1 "port" 0 hstoi
    simp only [initScalars, bind, Except.bind, e1, h2, e3]
    refine ⟨_, rfl, ?_⟩
    simpa [hp3 "transtype" (by decide)] using hpar1
  · obtain ⟨n3, par3, e3, hp3⟩ := getIntOpt_ok stoi (mapErase par1 "adapter") "port" 0 hstoi
    simp only [initScalars, bind, Except.bind, e1, h2, e3]
    refine ⟨_, rfl, ?_⟩
    rw [hp3 "transtype" (by decide),
      mapLookup_mapErase_ne par1 "adapter" "transtype" (by decide)]
    exact hpar1


/-- Claim C6: for every SRT-medium configuration whose option map does not
enforce the file transport type, when a non-default chunk size was
requested: a chunk size above the live-mode payload ceiling (1456) makes
InitParameters fail with the configuration error, and a chunk size within
the ceiling makes the resulting option map's payloadsize option equal the
requested chunk size. -/
theorem C6_live_chunk_size (stoi : String → Option Int) (false_names : List String)
    (host : String) (par0 : OptMap) (chunk : Nat)
    (hstoi : ∀ v, (stoi v).isSome)
    (hfile : mapLookup par0 "transtype" ≠ some "file")
    (hdef : chunk ≠ SRT_LIVE_DEF_PLSIZE) :
    (SRT_LIVE_MAX_PLSIZE < chunk →
      InitParameters stoi chunk false_names host par0 =
        .error "Chunk size in live mode exceeds 1456 bytes; this is not supported") ∧
    (chunk ≤ SRT_LIVE_MAX_PLSIZE →
      ∃ cfg, InitParameters stoi chunk false_names host par0 = .ok cfg ∧
        mapLookup cfg.m_options "payloadsize" = some (toString chunk)) := by
  obtain ⟨s, hs, htr⟩ := initScalars_ok_of_stoi_total stoi false_names host par0 hstoi
  rw [← htr] at hfile
  constructor
  · intro hgt
    simp [InitParameters, bind, Except.bind, hs, enforceLiveChunk, hfile, hdef, hgt]
  · intro hle
    simp only [InitParameters, bind, Except.bind, hs, enforceLiveChunk, hfile, hdef,
      if_true, if_pos, ite_not, Nat.not_lt.mpr hle, if_false, if_neg, not_lt.mpr hle]
    exact ⟨_, rfl, mapLookup_mapInsert_self s.par "payloadsize" (toString chunk)⟩

theorem C6_live_chunk_size_witness :
    (InitParameters (fun _ => some 0) 1500 ["no"] "remote" [] =
      .error "Chunk size in live mode exceeds 1456 bytes; this is not supported") ∧
    (∃ cfg, InitParameters (fun _ => some 0) 1400 ["no"] "remote" [] = .ok cfg ∧
      mapLookup cfg.m_options "payloadsize" = some (toString 1400)) :=
  ⟨(C6_live_chunk_size (fun _ => some 0) ["no"] "remote" [] 1500
      (fun _ => rfl) (by decide) (by decide)).1 (by decide),
   (C6_live_chunk_size (fun _ => some 0) ["no"] "remote" [] 1400
      (fun _ => rfl) (by decide) (by decide)).2 (by decide)⟩

/-- Phase tag of a socket-option table entry (socketoptions.hpp). -/
inductive OptBinding
  | PRE
  | POST
deriving Repr, DecidableEq

/-- An entry of the external srt_options table: only the option name and
its binding phase matter to the excerpt. -/
structure OptEntry where
  name : String
  binding : OptBinding
deriving Repr, DecidableEq

/-- One observable action of SrtCommon::ConfigurePost. -/
inductive PostAction
  | setsockopt (opt : String) (value : Int)
  | srtConfigurePostCall
  | applyTable (name : String) (value : String)
deriving Repr, DecidableEq

/-- SrtCommon::ConfigurePost (transmitmedia.cpp:307-349) as the int result
it returns together with the list of actions it performs.  `setResult opt`
is the value srt_setsockopt (an external library call) returns for option
`opt`; `table` stands for the external srt_options table. -/
def ConfigurePost (setResult : String → Int) (m_output_direction m_blocking_mode : Bool)
    (m_timeout : Int) (m_options : OptMap) (table : List OptEntry) :
    Int × List PostAction :=
  let yes : Int := if m_blocking_mode then 1 else 0
  let synOpt := if m_output_direction then "SRTO_SNDSYN" else "SRTO_RCVSYN"
  let timeoOpt := if m_output_direction then "SRTO_SNDTIMEO" else "SRTO_RCVTIMEO"
  if setResult synOpt = -1 then (-1, [.setsockopt synOpt yes])
  else if m_timeout ≠ 0 then
    (setResult timeoOpt, [.setsockopt synOpt yes, .setsockopt timeoOpt m_timeout])
  else
    let tableActions := table.filterMap (fun o =>
      if o.binding = OptBinding.POST then
        match mapLookup m_options o.name with
        | some v => some (PostAction.applyTable o.name v)
        | none => none
      else none)
    (0, [.setsockopt synOpt yes, .srtConfigurePostCall] ++ tableActions)

/-- A call made while opening an SRT connection (ConfigurePre/ConfigurePost
collapse their internals into one step each). -/
inductive ConnStep
  | srt_socket
  | setRendezvousFlag
  | configurePre
  | srt_bind
  | srt_connect
  | srt_accept
  | closeListenerSock
  | configurePost
deriving Repr, DecidableEq

/-- Success/failure of each external call made during connection setup. -/
structure LibOutcomes where
  socketOk : Bool
  preOk : Bool
  bindOk : Bool
  connectOk : Bool
  acceptOk : Bool
  postOk : Bool
deriving Repr, DecidableEq

/-- SrtCommon::OpenClient (transmitmedia.cpp:413-465, including
PrepareClient, the optional SetupAdapter bind on a pinned outgoing port,
and ConnectClient): the calls made, and whether the open succeeded (a
`false` is a thrown exception via Error). -/
def OpenClientTrace (r : LibOutcomes) (m_outgoing_port : Int) : List ConnStep × Bool :=
  if r.socketOk = false then ([.srt_socket], false)
  else if r.preOk = false then ([.srt_socket, .configurePre], false)
  else if m_outgoing_port ≠ 0 ∧ r.bindOk = false then
    ([.srt_socket, .configurePre, .srt_bind], false)
  else
    let base := [ConnStep.srt_socket, ConnStep.configurePre]
      ++ (if m_outgoing_port ≠ 0 then [ConnStep.srt_bind] else [])
    if r.connectOk = false then (base ++ [.srt_connect], false)
    else (base ++ [.srt_connect, .configurePost], r.postOk)

/-- SrtCommon::AcceptNewClient (transmitmedia.cpp:248-283): the calls made
and whether the accept succeeded.  The listener socket is closed both on
accept failure and, deliberately, right after a successful accept. -/
def AcceptTrace (r : LibOutcomes) : List ConnStep × Bool :=
  if r.acceptOk = false then ([.srt_accept, .closeListenerSock], false)
  else ([.srt_accept, .closeListenerSock, .configurePost], r.postOk)

/-- SrtCommon::OpenRendezvous (transmitmedia.cpp:480-532): the calls made
and whether the open succeeded.  The result of the SRTO_RENDEZVOUS
setsockopt is ignored by the code. -/
def OpenRendezvousTrace (r : LibOutcomes) : List ConnStep × Bool :=
  if r.socketOk = false then ([.srt_socket], false)
  else if r.preOk = false then ([.srt_socket, .setRendezvousFlag, .configurePre], false)
  else if r.bindOk = false then
    ([.srt_socket, .setRendezvousFlag, .configurePre, .srt_bind], false)
  else if r.connectOk = false then
    ([.srt_socket, .setRendezvousFlag, .configurePre, .srt_bind, .srt_connect], false)
  else
    ([.srt_socket, .setRendezvousFlag, .configurePre, .srt_bind, .srt_connect,
      .configurePost], r.postOk)

theorem openClientTrace_post_once (r : LibOutcomes) (p : Int)
    (h : (OpenClientTrace r p).2 = true) :
    ∃ t, (OpenClientTrace r p).1 = t ++ [ConnStep.configurePost] ∧
      ConnStep.configurePost ∉ t ∧ ConnStep.srt_connect ∈ t := by
  simp only [OpenClientTrace] at h ⊢
  split_ifs at h ⊢ with h1 h2 h3 h4 h5 <;> try simp at h
  · exact ⟨[.srt_socket, .configurePre, .srt_bind, .srt_connect], rfl, by decide, by decide⟩
  · exact ⟨[.srt_socket, .configurePre, .srt_connect], rfl, by decide, by decide⟩

theorem acceptTrace_post_once (r : LibOutcomes)
    (h : (AcceptTrace r).2 = true) :
    ∃ t, (AcceptTrace r).1 = t ++ [ConnStep.configurePost] ∧
      ConnStep.configurePost ∉ t ∧ ConnStep.srt_accept ∈ t := by
  simp only [AcceptTrace] at h ⊢
  split_ifs at h ⊢ with h1
  all_goals try simp at h
  exact ⟨[.srt_accept, .closeListenerSock], rfl, by decide, by decide⟩

theorem rendezvousTrace_post_once (r : LibOutcomes)
    (h : (OpenRendezvousTrace r).2 = true) :
    ∃ t, (OpenRendezvousTrace r).1 = t ++ [ConnStep.configurePost] ∧
      ConnStep.configurePost ∉ t ∧ ConnStep.srt_connect ∈ t := by
  simp only [OpenRendezvousTrace] at h ⊢
  split_ifs at h ⊢ with h1 h2 h3 h4
  all_goals try simp at h
  exact ⟨[.srt_socket, .setRendezvousFlag, .configurePre, .srt_bind, .srt_connect],
    rfl, by decide, by decide⟩

/-- Claim C1 is false as stated: with a configured timeout (here 5) the
post-configuration step returns right after setting the send-timeout, so a
POST-tagged table entry present in the option map (here inputbw=1000) is
not applied. -/
theorem C1_post_options_counterexample :
    ¬ (∀ o ∈ [OptEntry.mk "inputbw" OptBinding.POST],
        o.binding = OptBinding.POST → (mapLookup [("inputbw", "1000")] o.name).isSome →
          PostAction.applyTable o.name ((mapLookup [("inputbw", "1000")] o.name).getD "") ∈
            (ConfigurePost (fun _ => 0) true false 5 [("inputbw", "1000")]
              [OptEntry.mk "inputbw" OptBinding.POST]).2) := by
  decide

/-- Claim C1 (amended): immediately after a connection is established
(connect, accept, or rendezvous) the post-configuration step runs exactly
once; it first sets the synchronous-send flag (sending direction) or the
synchronous-receive flag (receiving direction); if a timeout is configured
it then sets the corresponding send/receive timeout and returns without
touching the POST option table; only when no timeout is configured does it
go on to apply every option-table entry tagged POST that appears in the
medium's option map. -/
theorem C1_post_configuration (setResult : String → Int) (out blocking : Bool)
    (timeout : Int) (opts : OptMap) (table : List OptEntry)
    (r : LibOutcomes) (p : Int) :
    ((OpenClientTrace r p).2 = true →
      ∃ t, (OpenClientTrace r p).1 = t ++ [ConnStep.configurePost] ∧
        ConnStep.configurePost ∉ t ∧ ConnStep.srt_connect ∈ t) ∧
    ((AcceptTrace r).2 = true →
      ∃ t, (AcceptTrace r).1 = t ++ [ConnStep.configurePost] ∧
        ConnStep.configurePost ∉ t ∧ ConnStep.srt_accept ∈ t) ∧
    ((OpenRendezvousTrace r).2 = true →
      ∃ t, (OpenRendezvousTrace r).1 = t ++ [ConnStep.configurePost] ∧
        ConnStep.configurePost ∉ t ∧ ConnStep.srt_connect ∈ t) ∧
    ((ConfigurePost setResult out blocking timeout opts table).2.head? =
      some (.setsockopt (if out then "SRTO_SNDSYN" else "SRTO_RCVSYN")
        (if blocking then 1 else 0))) ∧
    (timeout ≠ 0 → setResult (if out then "SRTO_SNDSYN" else "SRTO_RCVSYN") ≠ -1 →
      (ConfigurePost setResult out blocking timeout opts table).2 =
        [.setsockopt (if out then "SRTO_SNDSYN" else "SRTO_RCVSYN")
           (if blocking then 1 else 0),
         .setsockopt (if out then "SRTO_SNDTIMEO" else "SRTO_RCVTIMEO") timeout]) ∧
    (timeout = 0 → setResult (if out then "SRTO_SNDSYN" else "SRTO_RCVSYN") ≠ -1 →
      ∀ o ∈ table, o.binding = OptBinding.POST →
        ∀ v, mapLookup opts o.name = some v →
          PostAction.applyTable o.name v ∈
            (ConfigurePost setResult out blocking timeout opts table).2) := by
  refine ⟨openClientTrace_post_once r p, acceptTrace_post_once r,
    rendezvousTrace_post_once r, ?_, ?_, ?_⟩
  · simp only [ConfigurePost]
    split_ifs <;> rfl
  · intro ht hset
    simp only [ConfigurePost]
    rw [if_neg hset, if_pos ht]
  · intro ht hset o ho hpost v hv
    simp only [ConfigurePost]
    rw [if_neg hset, if_neg (by simp [ht])]
    simp only [List.mem_append, List.mem_filterMap]
    exact Or.inr ⟨o, ho, by simp [hpost, hv]⟩

theorem C1_post_configuration_witness :
    ((OpenClientTrace ⟨true, true, true, true, true, true⟩ 0).2 = true ∧
      (∃ t, (OpenClientTrace ⟨true, true, true, true, true, true⟩ 0).1 =
          t ++ [ConnStep.configurePost] ∧
        ConnStep.configurePost ∉ t ∧ ConnStep.srt_connect ∈ t)) ∧
    ((5 : Int) ≠ 0 ∧
      (ConfigurePost (fun _ => 0) true false 5 [("inputbw", "1000")]
          [OptEntry.mk "inputbw" OptBinding.POST]).2 =
        [.setsockopt "SRTO_SNDSYN" 0, .setsockopt "SRTO_SNDTIMEO" 5]) ∧
    PostAction.applyTable "inputbw" "1000" ∈
      (ConfigurePost (fun _ => 0) true false 0 [("inputbw", "1000")]
        [OptEntry.mk "inputbw" OptBinding.POST]).2 :=
  ⟨⟨by decide,
    (C1_post_configuration (fun _ => 0) true false 5 [("inputbw", "1000")]
      [OptEntry.mk "inputbw" OptBinding.POST] ⟨true, true, true, true, true, true⟩ 0).1
      (by decide)⟩,
   ⟨by decide,
    by
      have h := (C1_post_configuration (fun _ => 0) true false 5 [("inputbw", "1000")]
        [OptEntry.mk "inputbw" OptBinding.POST] ⟨true, true, true, true, true, true⟩ 0).2.2.2.2.1
      simpa using h (by decide) (by decide)⟩,
   by
      have h := (C1_post_configuration (fun _ => 0) true false 0 [("inputbw", "1000")]
        [OptEntry.mk "inputbw" OptBinding.POST] ⟨true, true, true, true, true, true⟩ 0).2.2.2.2.2
      exact h rfl (by decide) (OptEntry.mk "inputbw" OptBinding.POST) (by decide) rfl
        "1000" (by decide)⟩

/-- Scheme of a parsed URI (uriparser.hpp, external). -/
inductive UriType
  | SRT
  | UDP
  | FILE
  | UNKNOWN
deriving Repr, DecidableEq

/-- Kind of medium instantiated by CreateMedium. -/
inductive MediumKind
  | srtMedium
  | udpMedium
deriving Repr, DecidableEq

/-- CreateMedium (transmitmedia.cpp:1045-1104): scheme dispatch.  Port
≤ 1024 on the srt/udp schemes throws invalid_argument; any other scheme
(including file, whose case is compiled out by `#if 0`) takes the default
branch and returns a null pointer, modelled as `none`.  `iport` is the
already-parsed atoi result of the port string. -/
def CreateMedium (t : UriType) (iport : Int) : Except String (Option MediumKind) :=
  match t with
  | UriType.SRT =>
      if iport ≤ 1024 then .error "Invalid port number" else .ok (some .srtMedium)
  | UriType.UDP =>
      if iport ≤ 1024 then .error "Invalid port number" else .ok (some .udpMedium)
  | _ => .ok none

/-- Outcome of the target-creation step of one main-loop iteration. -/
inductive TargetStepOutcome
  | exitCode (n : Int)
  | nullDeref
  | registered (m : MediumKind)
deriving Repr, DecidableEq

/-- The target-creation step of the main loop
(srt-live-transmit.cpp:446-471): after `tar = Target::Create(params[1])`
the guard checks `!src.get()` — the source pointer, not the target just
created — and then `switch(tar->uri.type())` dereferences the target;
with a null target this is a null-pointer dereference. -/
def targetCreateStep (srcExists : Bool) (created : Option MediumKind) :
    TargetStepOutcome :=
  if srcExists = false then .exitCode 1
  else
    match created with
    | none => .nullDeref
    | some m => .registered m

/-- Claim C2: for an unsupported target scheme the factory indeed returns
no medium, but the caller does not exit with code 1: the guard after
target creation checks the source pointer (necessarily non-null at that
point), so the null target is dereferenced when the loop inspects its URI
to register it for polling. -/
theorem C2_unsupported_target_scheme :
    CreateMedium UriType.UNKNOWN 9999 = .ok none ∧
    targetCreateStep true none = .nullDeref ∧
    targetCreateStep true none ≠ .exitCode 1 :=
  ⟨rfl, rfl, by decide⟩

/-- C++ bool→int conversion, applied when a bool is passed where a socket
id is expected. -/
def boolToInt (b : Bool) : Int := if b then 1 else 0

/-- The set of SRT sockets registered with the epoll id, as a list. -/
abbrev PollSet := List Int

/-- srt_epoll_remove_usock on the modelled poll set. -/
def epollRemove (ps : PollSet) (s : Int) : PollSet := ps.filter (fun x => x ≠ s)

/-- srt_epoll_add_usock on the modelled poll set. -/
def epollAdd (ps : PollSet) (s : Int) : PollSet := ps ++ [s]

/-- The LISTENING branch of the main loop (srt-live-transmit.cpp:515-548)
combined with SrtCommon::AcceptNewClient (transmitmedia.cpp:248-283), for
a successful accept: AcceptNewClient closes the listening socket
`m_bindsock` (still registered at that moment) and installs the accepted
socket; the loop then calls srt_epoll_remove_usock(pollid, res) where res
is the boolean result of AcceptNewClient, converted to the integer 1, and
registers the accepted socket.  Returns (new poll set, sockets closed,
argument passed to the removal call). -/
def listeningBranch (ps : PollSet) (m_bindsock accepted : Int) :
    PollSet × List Int × Int :=
  let closed := [m_bindsock]
  let res := true
  let removeArg := boolToInt res
  let ps1 := epollRemove ps removeArg
  let ps2 := epollAdd ps1 accepted
  (ps2, closed, removeArg)

/-- Claim C3: with listening socket 100 registered and accept yielding
socket 102, the loop removes socket id 1 — the boolean accept result cast
to int — instead of the replaced listening handle, so the closed listener
100 stays registered: the one-registration-per-open-socket invariant and
the deregister-before-close rule both fail (the listener is closed inside
AcceptNewClient before any deregistration is attempted). -/
theorem C3_poll_registration :
    listeningBranch [100] 100 102 = ([100, 102], [100], 1) ∧
    (100 : Int) ∈ (listeningBranch [100] 100 102).1 ∧
    (100 : Int) ∈ (listeningBranch [100] 100 102).2.1 := by decide

/-- The two connected-state flags of the main loop. -/
structure ConnFlags where
  srcConnected : Bool
  tarConnected : Bool
deriving Repr, DecidableEq

/-- The BROKEN/NONEXIST/CLOSED branch of the main-loop state dispatch
(srt-live-transmit.cpp:550-572), restricted to the flag updates and the
disconnect log lines.  The target branch tests `!tarConnected` — the
negation of the target's own flag. -/
def brokenBranch (issource quiet : Bool) (f : ConnFlags) : ConnFlags × List String :=
  if issource then
    if f.srcConnected then
      ({ f with srcConnected := false },
       if quiet then [] else ["SRT source disconnected"])
    else (f, [])
  else if f.tarConnected = false then
    ({ f with tarConnected := false },
     if quiet then [] else ["SRT target disconnected"])
  else (f, [])

/-- Claim C4: the source side behaves as claimed (marked disconnected and
logged once on the transition), but a connected target observed broken is
left marked connected with nothing logged — the branch tests the negated
flag — while an already-disconnected target is logged again on every
poll, not once per connected-to-disconnected transition. -/
theorem C4_disconnect_marking :
    brokenBranch true false ⟨true, true⟩ =
      (⟨false, true⟩, ["SRT source disconnected"]) ∧
    brokenBranch false false ⟨true, true⟩ = (⟨true, true⟩, []) ∧
    brokenBranch false false ⟨true, false⟩ =
      (⟨true, false⟩, ["SRT target disconnected"]) := by
  decide

/-- SRT_INVALID_SOCK / UDT::INVALID_SOCK. -/
def SRT_INVALID_SOCK : Int := -1

/-- The socket-handle fields of an SrtCommon medium. -/
structure SrtHandles where
  m_sock : Int
  m_bindsock : Int
deriving Repr, DecidableEq

/-- One call issued by SrtCommon::Close. -/
inductive CloseCall
  | setSndSynFlag (s : Int)
  | srt_close (s : Int)
deriving Repr, DecidableEq

/-- SrtCommon::Close (transmitmedia.cpp:534-554): for each handle field
different from INVALID_SOCK it sets SRTO_SNDSYN on the handle and closes
it, ignoring all return values.  The fields themselves are never reset,
so the state returned equals the input state. -/
def SrtCommonClose (h : SrtHandles) : SrtHandles × List CloseCall :=
  let calls1 :=
    if h.m_sock ≠ SRT_INVALID_SOCK then
      [CloseCall.setSndSynFlag h.m_sock, CloseCall.srt_close h.m_sock]
    else []
  let calls2 :=
    if h.m_bindsock ≠ SRT_INVALID_SOCK then
      [CloseCall.setSndSynFlag h.m_bindsock, CloseCall.srt_close h.m_bindsock]
    else []
  (h, calls1 ++ calls2)

/-- State of a std::ofstream as far as FileTarget uses it. -/
structure OfStream where
  isOpenFlag : Bool
  failbit : Bool
deriving Repr, DecidableEq

/-- std::ofstream::close(): closing an open stream clears the open flag;
close on a stream that is not open sets failbit. -/
def ofstreamClose (s : OfStream) : OfStream :=
  if s.isOpenFlag then { s with isOpenFlag := false } else { s with failbit := true }

/-- FileTarget::Close (transmitmedia.cpp:79): ofile.close(). -/
def FileTargetClose (s : OfStream) : OfStream := ofstreamClose s

/-- FileTarget::Broken (transmitmedia.cpp:77): !ofile.good(). -/
def FileTargetBroken (s : OfStream) : Bool := s.failbit

/-- Claim C5 is false as stated: Close does not invalidate the handle
fields, so on a medium whose handle 5 was already closed by a first Close
a second Close issues srt_close on 5 again — the handle is closed a
second time. -/
theorem C5_close_counterexample :
    (SrtCommonClose ⟨5, -1⟩).1 = ⟨5, -1⟩ ∧
    CloseCall.srt_close 5 ∈ (SrtCommonClose (SrtCommonClose ⟨5, -1⟩).1).2 := by decide

/-- Claim C5 (amended): Close never raises an error — return values of the
underlying close calls are ignored and invalid handles are skipped — but
it is not idempotent: the handle fields are left unchanged, so a second
SrtCommon::Close re-issues exactly the same close calls (re-closing every
still-stored handle), and a second FileTarget::Close sets the stream
failure bit, making Broken() true. -/
theorem C5_close_behavior (h : SrtHandles) (s : OfStream) :
    (SrtCommonClose h).1 = h ∧
    (SrtCommonClose (SrtCommonClose h).1).2 = (SrtCommonClose h).2 ∧
    (h.m_sock ≠ SRT_INVALID_SOCK →
      CloseCall.srt_close h.m_sock ∈ (SrtCommonClose (SrtCommonClose h).1).2) ∧
    (s.isOpenFlag = true →
      FileTargetBroken (FileTargetClose s) = s.failbit ∧
      FileTargetBroken (FileTargetClose (FileTargetClose s)) = true) := by
  refine ⟨rfl, rfl, ?_, ?_⟩
  · intro hs
    simp [SrtCommonClose, hs]
  · intro ho
    constructor <;> simp [FileTargetClose, ofstreamClose, FileTargetBroken, ho]

theorem C5_close_behavior_witness :
    ((5 : Int) ≠ SRT_INVALID_SOCK ∧
      CloseCall.srt_close 5 ∈
        (SrtCommonClose (SrtCommonClose ⟨5, -1⟩).1).2) ∧
    (FileTargetBroken (FileTargetClose ⟨true, false⟩) = false ∧
      FileTargetBroken (FileTargetClose (FileTargetClose ⟨true, false⟩)) = true) :=
  ⟨⟨by decide, (C5_close_behavior ⟨5, -1⟩ ⟨true, false⟩).2.2.1 (by decide)⟩,
   (C5_close_behavior ⟨5, -1⟩ ⟨true, false⟩).2.2.2 rfl⟩

/-- SRT_EASYNCRCV: the "no data available yet" error code of a
non-blocking receive (6002 in the SRT error numbering). -/
def SRT_EASYNCRCV : Int := 6002

/-- The (code, message) pair held by the SRT library's last-error
facility. -/
structure SrtError where
  code : Int
  message : String
deriving Repr, DecidableEq

/-- Result of one srt_recvmsg call: SRT_ERROR with the library last-error
set, or a byte count (the payload; empty for stat == 0). -/
inductive RecvOutcome
  | err (e : SrtError)
  | bytes (data : List Int)
deriving Repr, DecidableEq

/-- Outcome of SrtSource::Read as observed by the caller. -/
inductive ReadOutcome
  | retFalseEmpty
  | readEOF (hostport : String)
  | transmissionError (clearedLastError : Bool) (msg : String)
  | retTrue (data : List Int)
deriving Repr, DecidableEq

/-- SrtCommon::Error (transmitmedia.cpp:467-478): logs the (code, message)
pair, clears the library's last-error state, and throws
TransmissionError("error: " + src + ": " + message) — the thrown value
carries the operation name and the message only. -/
def SrtCommonError (udtError : SrtError) (src : String) : ReadOutcome :=
  ReadOutcome.transmissionError true ("error: " ++ src ++ ": " ++ udtError.message)

/-- SrtSource::Read (transmitmedia.cpp:570-622), receive and error
handling (the do-while body runs exactly once since `ready` stays true;
the stats-report tail is external output only): SRT_ERROR in non-blocking
mode with last error SRT_EASYNCRCV clears the buffer and returns false;
any other SRT_ERROR goes to SrtCommon::Error("recvmsg"); stat == 0 throws
ReadEOF(hostport_copy); otherwise the data resized to stat is returned
with true. -/
def SrtSourceRead (m_blocking_mode : Bool) (hostport_copy : String)
    (recv : RecvOutcome) : ReadOutcome :=
  match recv with
  | .err e =>
      if m_blocking_mode = false ∧ e.code = SRT_EASYNCRCV then .retFalseEmpty
      else SrtCommonError e "recvmsg"
  | .bytes [] => .readEOF hostport_copy
  | .bytes data => .retTrue data

/-- Claim C7 is false in its "carrying the underlying code" part: two
receive failures that differ only in the error code produce identical
raised errors — the transmission error carries the operation name and the
message, but no trace of the code (which is only logged). -/
theorem C7_read_counterexample :
    SrtSourceRead false "h:9000" (.err ⟨1234, "Connection broken"⟩) =
      SrtSourceRead false "h:9000" (.err ⟨5678, "Connection broken"⟩) ∧
    SrtSourceRead false "h:9000" (.err ⟨1234, "Connection broken"⟩) =
      .transmissionError true "error: recvmsg: Connection broken" := by decide

/-- Claim C7 (amended): on a non-blocking SRT source a receive failure
whose last error is the "no data ready yet" code returns a non-error
empty result; a zero-byte receive raises the distinguished end-of-stream
condition, not a generic error; and every other receive failure raises a
typed transmission error carrying the operation name and the underlying
message (the numeric code is logged but not carried in the raised error),
after clearing the library's last-error state. -/
theorem C7_read_error_paths (e : SrtError) (hp : String) (data : List Int) :
    (e.code = SRT_EASYNCRCV → SrtSourceRead false hp (.err e) = .retFalseEmpty) ∧
    (SrtSourceRead false hp (.bytes []) = .readEOF hp) ∧
    (e.code ≠ SRT_EASYNCRCV →
      SrtSourceRead false hp (.err e) =
        .transmissionError true ("error: recvmsg: " ++ e.message)) ∧
    (data ≠ [] → SrtSourceRead false hp (.bytes data) = .retTrue data) := by
  refine ⟨?_, rfl, ?_, ?_⟩
  · intro h
    simp [SrtSourceRead, h]
  · intro h
    simp [SrtSourceRead, SrtCommonError, h]
  · intro h
    cases data with
    | nil => exact absurd rfl h
    | cons a l => rfl

theorem C7_read_error_paths_witness :
    (SrtSourceRead false "h:9000" (.err ⟨SRT_EASYNCRCV, "try again"⟩) =
      .retFalseEmpty) ∧
    (SrtSourceRead false "h:9000" (.bytes []) = .readEOF "h:9000") ∧
    (SrtSourceRead false "h:9000" (.err ⟨1234, "Connection broken"⟩) =
      .transmissionError true "error: recvmsg: Connection broken") ∧
    (SrtSourceRead false "h:9000" (.bytes [7, 7]) = .retTrue [7, 7]) :=
  ⟨(C7_read_error_paths ⟨SRT_EASYNCRCV, "try again"⟩ "h:9000" [7, 7]).1 rfl,
   (C7_read_error_paths ⟨SRT_EASYNCRCV, "try again"⟩ "h:9000" [7, 7]).2.1,
   by
     have h := (C7_read_error_paths ⟨1234, "Connection broken"⟩ "h:9000" [7, 7]).2.2.1
       (by decide)
     simpa using h,
   (C7_read_error_paths ⟨1234, "Connection broken"⟩ "h:9000" [7, 7]).2.2.2
     (by decide)⟩

/-- A constructed FileSource: the input stream failure flag and the stored
path copy. -/
structure FileSourceState where
  ifileFail : Bool
  filename_copy : String
deriving Repr, DecidableEq

/-- FileSource::FileSource (transmitmedia.cpp:35-39): opens the path for
binary reading (`openOk` says whether the OS open succeeds; failure
leaves the stream failed) and throws
runtime_error(path + ": Can't open file for reading") if the stream is in
the failed state. -/
def FileSourceCtor (path : String) (openOk : Bool) : Except String FileSourceState :=
  if openOk = false then .error (path ++ ": Can't open file for reading")
  else .ok ⟨false, path⟩

/-- FileTarget::FileTarget (transmitmedia.cpp:69): opens the path for
binary truncating write; the constructor body is empty — no check — so
the object is constructed even when the open failed (stream not open,
failbit set). -/
def FileTargetCtor (_path : String) (openOk : Bool) : Except String OfStream :=
  .ok ⟨openOk, !openOk⟩

/-- FileTarget::IsOpen (transmitmedia.cpp:76): !!ofile, i.e. the stream is
not in a failed state. -/
def FileTargetIsOpen (s : OfStream) : Bool := !s.failbit

/-- Claim C8 is false for the file target: constructing it on a path that
cannot be opened does not throw — it yields a constructed object holding
the failed stream. -/
theorem C8_file_ctor_counterexample :
    FileTargetCtor "/nonexistent/out.bin" false = .ok ⟨false, true⟩ := rfl

/-- Claim C8 (amended): a path that cannot be opened makes the file source
throw immediately during construction; the file target does not throw —
the object is constructed around the failed stream, observable only as
IsOpen() false and Broken() true. -/
theorem C8_file_ctor_behavior (path : String) :
    FileSourceCtor path false = .error (path ++ ": Can't open file for reading") ∧
    (∃ s, FileTargetCtor path false = .ok s ∧
      FileTargetIsOpen s = false ∧ FileTargetBroken s = true) :=
  ⟨rfl, ⟨⟨false, true⟩, rfl, rfl, rfl⟩⟩

/-- The batched-read loop of the main loop (srt-live-transmit.cpp:627-636):
while fewer than 10 chunks are queued, read one chunk from the source; a
failed or empty read breaks the loop.  The source is modelled as the queue
of chunks its successive Read calls produce (an exhausted list makes Read
return false).  Returns the queued chunks in arrival order and the number
of Read calls made; the first argument is the remaining queue capacity
(10 - dataqueue.size()). -/
def drainReads : Nat → List (List Int) → List (List Int) × Nat
  | 0, _ => ([], 0)
  | _ + 1, [] => ([], 1)
  | fuel + 1, c :: rest =>
      if c.isEmpty then ([], 1)
      else
        let (q, n) := drainReads fuel rest
        (c :: q, n + 1)

/-- The guard on the batched read (srt-live-transmit.cpp:625): chunks are
read only when a source exists and the poll reported at least one ready
socket; the queue starts empty so the capacity is 10. -/
def batchStep (srcExists : Bool) (readyCount : Nat) (src : List (List Int)) :
    List (List Int) × Nat :=
  if srcExists = true ∧ readyCount ≠ 0 then drainReads 10 src else ([], 0)

/-- The delivery loop (srt-live-transmit.cpp:639-648): while a target
exists and the queue is nonempty, pop the front chunk, writing it first
if the target reports open.  The target is abstracted as a state machine
(`isOpen` probe, `write` transition).  Returns the final target state and
the chunks written, in order; with no target nothing runs and the queue
contents are dropped. -/
def deliverAll {T : Type} (isOpen : T → Bool) (write : T → List Int → T) :
    Option T → List (List Int) → Option T × List (List Int)
  | none, _ => (none, [])
  | some t, [] => (some t, [])
  | some t, c :: q =>
      if isOpen t then
        let (t2, ws) := deliverAll isOpen write (some (write t c)) q
        (t2, c :: ws)
      else
        deliverAll isOpen write (some t) q

theorem drainReads_full (fuel : Nat) (src : List (List Int))
    (hlen : fuel ≤ src.length) (hne : ∀ c ∈ src, c ≠ []) :
    drainReads fuel src = (src.take fuel, fuel) := by
  induction fuel generalizing src with
  | zero => simp [drainReads]
  | succ n ih =>
      cases src with
      | nil => simp at hlen
      | cons c rest =>
          have hc : ¬ c.isEmpty := by
            simpa [List.isEmpty_iff] using hne c (by simp)
          simp [drainReads, hc,
            ih rest (by simpa using hlen) (fun d hd => hne d (by simp [hd]))]

theorem deliverAll_open {T : Type} (isOpen : T → Bool) (write : T → List Int → T)
    (hOpen : ∀ u, isOpen u = true) (q : List (List Int)) (t : T) :
    (deliverAll isOpen write (some t) q).2 = q := by
  induction q generalizing t with
  | nil => rfl
  | cons c rest ih => simp [deliverAll, hOpen t, ih (write t c)]

theorem deliverAll_none {T : Type} (isOpen : T → Bool) (write : T → List Int → T)
    (q : List (List Int)) : deliverAll isOpen write none q = (none, []) := by
  cases q <;> rfl

/-- Claim C9: with a source holding at least 10 chunks of the configured
chunk size, one ready event causes exactly 10 reads, queued in arrival
order; the chunks are then delivered to the target in FIFO order when a
target exists and is open, and with no target they are dropped silently
(no error outcome exists in the delivery loop). -/
theorem C9_batched_reads {T : Type} (isOpen : T → Bool) (write : T → List Int → T)
    (src : List (List Int)) (chunkSize : Nat) (rdy : Nat) (t : T)
    (hlen : 10 ≤ src.length)
    (hsize : ∀ c ∈ src, c.length = chunkSize) (hpos : 0 < chunkSize)
    (hOpen : ∀ u, isOpen u = true) (hrdy : rdy ≠ 0) :
    batchStep true rdy src = (src.take 10, 10) ∧
    (deliverAll isOpen write (some t) (batchStep true rdy src).1).2 = src.take 10 ∧
    deliverAll isOpen write none (batchStep true rdy src).1 = (none, []) := by
  have hne : ∀ c ∈ src, c ≠ [] := by
    intro c hc h
    rw [h] at hc
    have := hsize [] hc
    simp at this
    omega
  have hb : batchStep true rdy src = (src.take 10, 10) := by
    simp [batchStep, hrdy, drainReads_full 10 src hlen hne]
  refine ⟨hb, ?_, ?_⟩
  · rw [hb]
    exact deliverAll_open isOpen write hOpen (src.take 10) t
  · exact deliverAll_none isOpen write _

theorem C9_batched_reads_witness :
    batchStep true 1 [[1], [2], [3], [4], [5], [6], [7], [8], [9], [10], [11]] =
      ([[1], [2], [3], [4], [5], [6], [7], [8], [9], [10]], 10) ∧
    (deliverAll (fun _ : Unit => true) (fun u _ => u) (some ())
        (batchStep true 1 [[1], [2], [3], [4], [5], [6], [7], [8], [9], [10], [11]]).1).2 =
      [[1], [2], [3], [4], [5], [6], [7], [8], [9], [10]] ∧
    deliverAll (fun _ : Unit => true) (fun u _ => u) none
        (batchStep true 1 [[1], [2], [3], [4], [5], [6], [7], [8], [9], [10], [11]]).1 =
      (none, []) :=
  C9_batched_reads (fun _ : Unit => true) (fun u _ => u)
    [[1], [2], [3], [4], [5], [6], [7], [8], [9], [10], [11]] 1 1 ()
    (by decide) (by decide) (by decide) (fun _ => rfl) (by decide)

/-- EWOULDBLOCK (EAGAIN) as reported by SysError(). -/
def EWOULDBLOCK : Int := 11

/-- State of a UdpSource: the OS socket id and the eof flag (the
constructor sets eof false after a successful bind). -/
structure UdpSourceState where
  m_sock : Int
  eof : Bool
deriving Repr, DecidableEq

/-- Result of one recvfrom call: `bytes data` for stat ≥ 1 (stat is the
data length), or `short sysError` for stat < 1 together with the errno
value SysError() reads. -/
inductive UdpRecvResult
  | bytes (data : List Int)
  | short (sysError : Int)
deriving Repr, DecidableEq

/-- UdpSource::Read (transmitmedia.cpp:982-1003): when recvfrom returns
fewer than 1 byte, the buffer is cleared and false returned — no error is
raised — and eof is set unless errno is EWOULDBLOCK; otherwise the data
resized to stat is returned with true.  Returns (new state, Read result,
buffer contents). -/
def UdpSourceRead (s : UdpSourceState) (r : UdpRecvResult) :
    UdpSourceState × Bool × List Int :=
  match r with
  | .short sysError =>
      let s1 := if sysError ≠ EWOULDBLOCK then { s with eof := true } else s
      (s1, false, [])
  | .bytes data => (s, true, data)

/-- UdpSource::End (transmitmedia.cpp:1006): the eof flag. -/
def UdpSourceEnd (s : UdpSourceState) : Bool := s.eof

/-- Claim C10: a UDP receive returning fewer than 1 byte never raises: it
returns false with the buffer emptied; the source is marked at
end-of-stream unless the failure is the would-block condition; and once
eof is set no later read resets it, so End() stays true from then on. -/
theorem C10_udp_short_read (s : UdpSourceState) (err : Int) (r : UdpRecvResult)
    (herr : err ≠ EWOULDBLOCK) :
    UdpSourceRead s (.short err) = ({ s with eof := true }, false, []) ∧
    UdpSourceEnd (UdpSourceRead s (.short err)).1 = true ∧
    UdpSourceRead s (.short EWOULDBLOCK) = (s, false, []) ∧
    (UdpSourceEnd s = true → UdpSourceEnd (UdpSourceRead s r).1 = true) := by
  refine ⟨by simp [UdpSourceRead, herr], by simp [UdpSourceRead, UdpSourceEnd, herr],
    by simp [UdpSourceRead], ?_⟩
  intro he
  cases r with
  | bytes data => simpa [UdpSourceRead, UdpSourceEnd] using he
  | short e =>
      by_cases h : e ≠ EWOULDBLOCK
      · simp [UdpSourceRead, UdpSourceEnd, h]
      · simpa [UdpSourceRead, UdpSourceEnd, h] using he

theorem C10_udp_short_read_witness :
    UdpSourceRead ⟨3, false⟩ (.short 104) = (⟨3, true⟩, false, []) ∧
    UdpSourceEnd (UdpSourceRead ⟨3, false⟩ (.short 104)).1 = true ∧
    UdpSourceRead ⟨3, false⟩ (.short EWOULDBLOCK) = (⟨3, false⟩, false, []) ∧
    (UdpSourceEnd ⟨3, false⟩ = true →
      UdpSourceEnd (UdpSourceRead ⟨3, false⟩ (.bytes [9])).1 = true) :=
  C10_udp_short_read ⟨3, false⟩ 104 (.bytes [9]) (by decide)
